import Mathlib

/-!
The H.264 / MPEG-TS streamer of multimedia-tools.

A shallow embedding of `include/streaming_helper.h` and of the streaming
session in `include/h264_mpegts_streamer.h`, together with the properties
of the packet wrapping, the elementary-stream header latch, the keyframe
detector and the PES header builder.

Conventions of the embedding:

* a byte (`uint8_t`, `unsigned char`) is a `Nat`; a store of an `int`
  expression into a byte goes through `toUInt8` (reduction modulo 256);
* `int` and `int64_t` values are `Int`; the `int` arithmetic of
  `CreatePESHeader` on the caller's `data_size` and the narrowing of
  `es_header_.size() + size` into the `int buffer_size` of
  `StreamEncodedData` are wrapped by `wrapInt32`;
* a pointer to a buffer is an `Option (List Nat)`, `none` being the null
  pointer; a read past the end of the list yields `0` (the theorems only
  read inside the buffer);
* a pair `(data, size)` handed to the session denotes the byte sequence
  `data[0 .. size)`, so the session operations take the list and use its
  length as `size`.
-/

namespace MultimediaTools

/-! ## streaming_helper.h -/

/-- Conversion of an `int` to `bool`: every non-zero value is `true`. -/
def boolOfInt (x : Int) : Bool := x != 0

/-- Store of an integer expression into a `uint8_t`. -/
def toUInt8 (x : Int) : Nat := (x % 256).toNat

/-- Two's complement wrap-around of a 32-bit `int`. -/
def wrapInt32 (x : Int) : Int := (x + 2147483648) % 4294967296 - 2147483648

/-- The constant `kMaxPESPacketLen`. -/
def kMaxPESPacketLen : Int := 65535

/-- The enumeration `MediaType`. -/
inductive MediaType where
  | AUDIO
  | VIDEO
  deriving DecidableEq, Repr

/-- Numeric value of a `MediaType` enumerator. -/
def MediaType.toInt : MediaType → Int
  | MediaType.AUDIO => 0xC0
  | MediaType.VIDEO => 0xE0

/-- Function `CreatePESHeader(type, data_size, size_included, pts)`: returns the
header bytes and the value written through `size_included`. -/
def CreatePESHeader (type : MediaType) (data_size : Int) (pts : Int) : List Nat × Int :=
  let header_size : Int := if pts = -1 then 9 else 14
  let header_extension_size : Int := header_size - 6
  let h0 : Nat := 0x00
  let h1 : Nat := 0x00
  let h2 : Nat := 0x01
  let h3 : Nat := toUInt8 (Int.land type.toInt 0xFF)
  let total_data_size0 : Int := wrapInt32 (data_size + header_extension_size)
  let total_data_size : Int :=
    if total_data_size0 > kMaxPESPacketLen then kMaxPESPacketLen else total_data_size0
  let size_included : Int := wrapInt32 (total_data_size - header_extension_size)
  let h4 : Nat := toUInt8 (total_data_size >>> (8 : Nat))
  let h5 : Nat := toUInt8 (Int.land total_data_size 0xFF)
  let h6 : Nat := 0x84
  if pts = -1 then
    ([h0, h1, h2, h3, h4, h5, h6, 0x00, 0x00], size_included)
  else
    let h9 : Nat := toUInt8 (Int.lor 0x21 ((Int.land (pts >>> (30 : Nat)) 7) <<< (1 : Int)))
    let h10 : Nat := toUInt8 (Int.land (pts >>> (22 : Nat)) 0xFF)
    let h11 : Nat := toUInt8 (Int.lor 1 ((Int.land (pts >>> (15 : Nat)) 0x7F) <<< (1 : Int)))
    let h12 : Nat := toUInt8 (Int.land (pts >>> (7 : Nat)) 0xFF)
    let h13 : Nat := toUInt8 (Int.lor 1 ((Int.land (pts >>> (0 : Nat)) 0x7F) <<< (1 : Int)))
    ([h0, h1, h2, h3, h4, h5, h6, 0x80, 5, h9, h10, h11, h12, h13], size_included)

/-- Function `IsKeyFrame(p, len)`. The moving pointer `b` of the source is the
buffer together with an offset; `return -1` from a function returning
`bool` is the conversion of `-1`. -/
def IsKeyFrame (p : Option (List Nat)) (len : Int) : Bool :=
  match p with
  | none => boolOfInt (-1)
  | some buf =>
    if 6 ≥ len then boolOfInt (-1)
    else
      -- `b[i]` with `b` advanced by `off`
      let rd : Nat → Nat → Nat := fun off i => buf.getD (off + i) 0
      -- `b[0] || b[1] || 0x01 != b[2]`
      let noMarker : Nat → Bool := fun off =>
        rd off 0 != 0 || rd off 1 != 0 || 0x01 != rd off 2
      -- the code from `b += 3` on
      let vop : Nat → Bool := fun off =>
        let off3 := off + 3
        if 0xb6 == rd off3 0 then
          let off4 := off3 + 1
          (rd off4 0 &&& 0xc0) >>> 6 == 0
        else if rd off3 0 == 0x65 then true
        else false
      if noMarker 0 then
        if noMarker 1 then false else vop 1
      else vop 0

/-- The keyframe classifier in the words of the specification, on a buffer
of bytes: a start code `00 00 01` at offset 0, else at offset 1, else not a
keyframe; with `t` the byte after the start code, a keyframe iff `t = 0x65`,
or `t = 0xB6` and the top 2 bits of the next byte are 0. -/
def IsKeyFrameRef (b : List Nat) : Bool :=
  let startCode : Nat → Bool := fun off =>
    decide (b.getD off 0 = 0x00 ∧ b.getD (off + 1) 0 = 0x00 ∧ b.getD (off + 2) 0 = 0x01)
  let classify : Nat → Bool := fun off =>
    let t := b.getD (off + 3) 0
    decide (t = 0x65 ∨ (t = 0xB6 ∧ b.getD (off + 4) 0 < 64))
  if startCode 0 then classify 0
  else if startCode 1 then classify 1
  else false

/-- Header length of the specification: 9 bytes without a timestamp
(`pts = -1`), 14 bytes with one. -/
def PESHeaderLength (pts : Int) : Nat := if pts = -1 then 9 else 14

/-- Declared size of the specification for a payload of `n` bytes:
`min (n + ext) 65535`, with `ext` the header length minus 6. -/
def PESDeclaredSize (n pts : Int) : Int := min (n + ((PESHeaderLength pts : Int) - 6)) 65535

/-- The standard three-field decoding of the timestamp of a PES header:
`((bytes[9] >> 1) & 7) * 2^30 + bytes[10] * 2^22 + (bytes[11] >> 1) * 2^15 +
bytes[12] * 2^7 + (bytes[13] >> 1)`. -/
def PESTimestamp (bytes : List Nat) : Nat :=
  ((bytes.getD 9 0 >>> 1) &&& 7) * 2 ^ 30 + bytes.getD 10 0 * 2 ^ 22 +
    (bytes.getD 11 0 >>> 1) * 2 ^ 15 + bytes.getD 12 0 * 2 ^ 7 + (bytes.getD 13 0 >>> 1)

/-! ## The codec and container library

The session talks to an external library (encoder, decoder, muxer). Its
header constants and the results of its calls are not part of the
repository; they are parameters of the embedding. The library answers each
call as a function of all the events so far, the call included. -/

/-- Rational number of the library (`AVRational`). -/
structure AVRational where
  num : Int
  den : Int
  deriving DecidableEq, Repr

/-- Raw frame (`AVFrame`), opaque to the session. -/
structure AVFrame where
  content : List Nat
  deriving DecidableEq, Repr

/-- Packet of the library (`AVPacket`), with the fields the session sets. -/
structure AVPacket where
  flags : Nat
  stream_index : Int
  data : Option (List Nat)
  size : Int
  dts : Int
  pts : Int
  deriving DecidableEq, Repr

/-- Codec parameters of a stream (`AVCodecParameters`). -/
structure AVCodecParameters where
  codec_id : Int
  codec_type : Int
  bit_rate : Int
  width : Int
  height : Int
  extradata_size : Int
  extradata : List Nat
  deriving DecidableEq, Repr

/-- Output stream descriptor (`AVStream`). -/
structure AVStream where
  index : Int
  codecpar : AVCodecParameters
  time_base : AVRational
  deriving DecidableEq, Repr

/-- Output container context (`AVFormatContext`): the flags of its format. -/
structure AVFormatContext where
  oformat_flags : Nat
  deriving DecidableEq, Repr

/-- Observable events of a session: the calls into the library that return
a result or hand over data, and the messages given to `LogError`. -/
inductive Event where
  | avformat_alloc_output_context2 (dst : String)
  | avformat_new_stream
  | avio_open (dst : String)
  | avformat_write_header
  | av_interleaved_write_frame (pkt : AVPacket)
  | avcodec_send_frame (frame : Option AVFrame)
  | avcodec_receive_packet
  | avcodec_send_packet (pkt : AVPacket)
  | avcodec_receive_frame
  | LogError (msg : String)
  deriving DecidableEq, Repr

/-- The library: its header constants, the packet as `av_init_packet` leaves
it (every field the session reads is set there or overwritten by the
session), `av_packet_unref`, and its answers to the latest call of a
history: the return code, the created context, the created stream, and what
`avcodec_receive_packet` and `avcodec_receive_frame` make of the packet and
the frame they are given. -/
structure AvLib where
  AV_PKT_FLAG_KEY : Nat
  AV_NOPTS_VALUE : Int
  AVERROR_EAGAIN : Int
  AVERROR_EOF : Int
  AVFMT_NOFILE : Nat
  AV_CODEC_ID_H264 : Int
  AVMEDIA_TYPE_VIDEO : Int
  FF_INPUT_BUFFER_PADDING_SIZE : Nat
  av_init_packet : AVPacket
  av_packet_unref : AVPacket → AVPacket
  ret : List Event → Int
  context : List Event → Option AVFormatContext
  stream : List Event → Option AVStream
  packet : List Event → AVPacket → AVPacket
  frame : List Event → AVFrame → AVFrame

/-- Modelled from the spec: `av_rescale_q(a, bq, cq)` of the library, which
is not in the sources: "standard rational rescaling (multiply-then-divide
with rounding)" of `a` from time base `bq` to time base `cq`, that is
`a * bq / cq` rounded to the nearest integer, halves away from zero,
computed on unbounded integers ("avoiding overflow"). -/
def av_rescale_q (a : Int) (bq cq : AVRational) : Int :=
  let b : Int := bq.num * cq.den
  let c : Int := cq.num * bq.den
  if 0 ≤ a * b then (a * b + c / 2) / c else -((-(a * b) + c / 2) / c)

/-- The constant `kBitRate`. -/
def kBitRate : Int := 2097152

/-- How a call ends: it returns a value, it dereferences a null pointer, or
its loop is still running when the step budget is used up. -/
inductive Outcome (α : Type) where
  | ret (a : α)
  | fault
  | running
  deriving DecidableEq, Repr

/-- The class `H264MpegtsStreamer`: its data members. A pointer member is an
`Option`, `none` being `nullptr`. -/
structure H264MpegtsStreamer where
  dst_ : String
  height_ : Int
  width_ : Int
  fps_ : Int
  ofmt_ctx_ : Option AVFormatContext
  ostream_ : Option AVStream
  encode_ctx_ : Option Unit
  decode_ctx_ : Option Unit
  encode_packet_ : AVPacket
  decode_frame_ : Option AVFrame
  es_header_ : List Nat
  es_header_sent_ : Bool
  deriving DecidableEq, Repr

/-- The constructor `H264MpegtsStreamer(dst, width, height, fps)`; `uninit`
is the indeterminate content of the member `encode_packet_`. -/
def H264MpegtsStreamer.new (dst : String) (width height fps : Int) (uninit : AVPacket) :
    H264MpegtsStreamer :=
  { dst_ := dst, height_ := height, width_ := width, fps_ := fps,
    ofmt_ctx_ := none, ostream_ := none, encode_ctx_ := none, decode_ctx_ := none,
    encode_packet_ := uninit, decode_frame_ := none, es_header_ := [],
    es_header_sent_ := false }

/-- Method `AddVideoStream()`: the stream the library creates, with the
codec parameters and the time base the session gives it. The library
returning no stream is a null dereference. -/
def AddVideoStream (lib : AvLib) (s : H264MpegtsStreamer) (tr : List Event) :
    Outcome AVStream × List Event :=
  let tr1 := tr ++ [Event.avformat_new_stream]
  match lib.stream tr1 with
  | none => (.fault, tr1)
  | some st =>
    let par : AVCodecParameters :=
      { st.codecpar with
        codec_id := lib.AV_CODEC_ID_H264
        codec_type := lib.AVMEDIA_TYPE_VIDEO
        bit_rate := kBitRate
        width := s.width_
        height := s.height_
        extradata_size := lib.FF_INPUT_BUFFER_PADDING_SIZE
        extradata := List.replicate lib.FF_INPUT_BUFFER_PADDING_SIZE 0 }
    let tb : AVRational := { st.time_base with den := s.fps_ }
    let tb : AVRational := { tb with num := 1 }
    (.ret { st with codecpar := par, time_base := tb }, tr1)

/-- The end of `Open()`: writing the container header. -/
def OpenWriteHeader (lib : AvLib) (s : H264MpegtsStreamer) (tr : List Event) :
    Outcome Bool × H264MpegtsStreamer × List Event :=
  let tr1 := tr ++ [Event.avformat_write_header]
  if lib.ret tr1 < 0 then
    (.ret false, s, tr1 ++ [Event.LogError "Failed to write header"])
  else (.ret true, s, tr1)

/-- Method `Open()`. `AddVideoStream` dereferences the stream the library
returns, so it faults before it could return a null stream, and the test
`!ostream_` never fires. -/
def Open (lib : AvLib) (s : H264MpegtsStreamer) (tr : List Event) :
    Outcome Bool × H264MpegtsStreamer × List Event :=
  let tr1 := tr ++ [Event.avformat_alloc_output_context2 s.dst_]
  let s1 := { s with ofmt_ctx_ := lib.context tr1 }
  match s1.ofmt_ctx_ with
  | none => (.ret false, s1, tr1 ++ [Event.LogError "Unable to create output context"])
  | some ctx =>
    match AddVideoStream lib s1 tr1 with
    | (.ret st, tr2) =>
      let s2 := { s1 with ostream_ := some st }
      if ctx.oformat_flags &&& lib.AVFMT_NOFILE = 0 then
        let tr3 := tr2 ++ [Event.avio_open s2.dst_]
        if lib.ret tr3 < 0 then
          (.ret false, s2, tr3 ++ [Event.LogError "Cannot open URL for output"])
        else OpenWriteHeader lib s2 tr3
      else OpenWriteHeader lib s2 tr2
    | (_, tr2) => (.fault, s1, tr2)

/-- Method `WrapEncodedBuffer(pkt, data, size, timestamp)`: the packet it
fills, or `none` when `ostream_` is null. -/
def WrapEncodedBuffer (lib : AvLib) (s : H264MpegtsStreamer) (data : Option (List Nat))
    (size : Int) (timestamp : Int) : Option AVPacket :=
  match s.ostream_ with
  | none => none
  | some ostream =>
    let pkt := lib.av_init_packet
    let pkt := { pkt with
      flags := pkt.flags ||| (if IsKeyFrame data size then lib.AV_PKT_FLAG_KEY else 0) }
    let pkt := { pkt with stream_index := ostream.index }
    let pkt := { pkt with data := data }
    let pkt := { pkt with size := size }
    let pkt := { pkt with dts := lib.AV_NOPTS_VALUE }
    some { pkt with
      pts := av_rescale_q timestamp { num := 1, den := 1000000 } ostream.time_base }

/-- The drain loop of `StreamFrame`, entered with the latest return code
`ret`, for at most `fuel` rounds. -/
def StreamFrameLoop (lib : AvLib) :
    Nat → Int → H264MpegtsStreamer → List Event →
      Outcome Bool × H264MpegtsStreamer × List Event
  | 0, ret, s, tr => if ret ≥ 0 then (.running, s, tr) else (.ret true, s, tr)
  | fuel + 1, ret, s, tr =>
    if ret ≥ 0 then
      let tr1 := tr ++ [Event.avcodec_receive_packet]
      let ret1 := lib.ret tr1
      let s1 := { s with encode_packet_ := lib.packet tr1 s.encode_packet_ }
      if ret1 = lib.AVERROR_EAGAIN ∨ ret1 = lib.AVERROR_EOF then (.ret true, s1, tr1)
      else if ret1 < 0 then
        (.ret false, s1, tr1 ++ [Event.LogError "Error during encoding"])
      else
        let tr2 := tr1 ++ [Event.av_interleaved_write_frame s1.encode_packet_]
        let s2 := { s1 with encode_packet_ := lib.av_packet_unref s1.encode_packet_ }
        StreamFrameLoop lib fuel ret1 s2 tr2
    else (.ret true, s, tr)

/-- Method `StreamFrame(frame)`, its loop running for at most `fuel` rounds. -/
def StreamFrame (lib : AvLib) (fuel : Nat) (s : H264MpegtsStreamer) (tr : List Event)
    (frame : Option AVFrame) : Outcome Bool × H264MpegtsStreamer × List Event :=
  match s.encode_ctx_ with
  | none => (.ret false, s, tr ++ [Event.LogError "Must initialize codec"])
  | some _ =>
    let tr1 := tr ++ [Event.avcodec_send_frame frame]
    let ret := lib.ret tr1
    if ret < 0 then
      (.ret false, s, tr1 ++ [Event.LogError "Error sending a frame for encoding\n"])
    else StreamFrameLoop lib fuel ret s tr1

/-- The drain loop of `StreamReencodeData`, entered with the latest return
code `ret`, for at most `fuel` rounds; each `StreamFrame` it calls has the
budget `inner`. -/
def StreamReencodeDataLoop (lib : AvLib) (inner : Nat) :
    Nat → Int → H264MpegtsStreamer → List Event →
      Outcome Bool × H264MpegtsStreamer × List Event
  | 0, ret, s, tr => if ret ≥ 0 then (.running, s, tr) else (.ret true, s, tr)
  | fuel + 1, ret, s, tr =>
    if ret ≥ 0 then
      let tr1 := tr ++ [Event.avcodec_receive_frame]
      let ret1 := lib.ret tr1
      let s1 := { s with decode_frame_ := s.decode_frame_.map (lib.frame tr1) }
      if ret1 = lib.AVERROR_EAGAIN ∨ ret1 = lib.AVERROR_EOF then (.ret true, s1, tr1)
      else
        match StreamFrame lib inner s1 tr1 s1.decode_frame_ with
        | (.ret true, s2, tr2) => StreamReencodeDataLoop lib inner fuel ret1 s2 tr2
        | (.ret false, s2, tr2) => (.ret false, s2, tr2)
        | (.fault, s2, tr2) => (.fault, s2, tr2)
        | (.running, s2, tr2) => (.running, s2, tr2)
    else (.ret true, s, tr)

/-- Method `StreamReencodeData(data, size, timestamp)`. -/
def StreamReencodeData (lib : AvLib) (inner fuel : Nat) (s : H264MpegtsStreamer)
    (tr : List Event) (data : List Nat) (timestamp : Int) :
    Outcome Bool × H264MpegtsStreamer × List Event :=
  match s.decode_ctx_ with
  | none => (.ret false, s, tr ++ [Event.LogError "Must initialize codec"])
  | some _ =>
    match WrapEncodedBuffer lib s (some data) (data.length : Int) timestamp with
    | none => (.fault, s, tr)
    | some pkt =>
      let tr1 := tr ++ [Event.avcodec_send_packet pkt]
      StreamReencodeDataLoop lib inner fuel (lib.ret tr1) s tr1

/-! ## Sequences of calls and sample libraries -/

/-- The members of the header latch and the stream pointer are the same in
two session states. -/
def SameLatch (s s' : H264MpegtsStreamer) : Prop :=
  s'.es_header_sent_ = s.es_header_sent_ ∧ s'.es_header_ = s.es_header_ ∧
    s'.ostream_ = s.ostream_

instance (s s' : H264MpegtsStreamer) : Decidable (SameLatch s s') := by
  unfold SameLatch
  infer_instance

/-- A library with the constants of the FFmpeg headers whose calls return
the code `ret` gives for the history; it creates a context that needs no
file and the stream 0, its encoder produces a 5-byte packet, and its decoder
leaves the frame as it is. -/
def sampleLib (ret : List Event → Int) : AvLib :=
  { AV_PKT_FLAG_KEY := 0x0001
    AV_NOPTS_VALUE := -9223372036854775808
    AVERROR_EAGAIN := -11
    AVERROR_EOF := -541478725
    AVFMT_NOFILE := 0x0001
    AV_CODEC_ID_H264 := 27
    AVMEDIA_TYPE_VIDEO := 0
    FF_INPUT_BUFFER_PADDING_SIZE := 32
    av_init_packet :=
      { flags := 0, stream_index := 0, data := none, size := 0,
        dts := -9223372036854775808, pts := -9223372036854775808 }
    av_packet_unref := fun _ =>
      { flags := 0, stream_index := 0, data := none, size := 0,
        dts := -9223372036854775808, pts := -9223372036854775808 }
    ret := ret
    context := fun _ => some { oformat_flags := 0x0001 }
    stream := fun _ =>
      some { index := 0,
             codecpar := { codec_id := 0, codec_type := -1, bit_rate := 0, width := 0,
                           height := 0, extradata_size := 0, extradata := [] },
             time_base := { num := 0, den := 1 } }
    packet := fun _ _ =>
      { flags := 1, stream_index := 0, data := some [0x00, 0x00, 0x00, 0x01, 0x65], size := 5,
        dts := 0, pts := 0 }
    frame := fun _ frame => frame }

/-- Every call succeeds with code 0. -/
def retOk : List Event → Int := fun _ => 0

/-- The decoder rejects the submitted packet with `AVERROR_INVALIDDATA`. -/
def retSendPacketFails : List Event → Int := fun tr =>
  match tr.getLast? with
  | some (.avcodec_send_packet _) => -1094995529
  | some .avcodec_receive_packet => -11
  | _ => 0

/-- The decoder accepts the packet and then fails the frame retrieval with
`AVERROR_INVALIDDATA`; the encoder accepts a frame and asks for more input. -/
def retReceiveFrameFails : List Event → Int := fun tr =>
  match tr.getLast? with
  | some .avcodec_receive_frame => -1094995529
  | some .avcodec_receive_packet => -11
  | _ => 0

/-- The stream of the opened sample session. -/
def sampleStream : AVStream :=
  { index := 0,
    codecpar := { codec_id := 27, codec_type := 0, bit_rate := 2097152, width := 320,
                  height := 240, extradata_size := 32, extradata := List.replicate 32 0 },
    time_base := { num := 1, den := 30 } }

/-- A session for a 320x240, 30 fps destination, constructed and opened. -/
def sampleSession : H264MpegtsStreamer :=
  (Open (sampleLib retOk)
    (H264MpegtsStreamer.new "out.ts" 320 240 30
      { flags := 0, stream_index := 0, data := none, size := 0, dts := 0, pts := 0 }) []).2.1

/-- The opened session with both codec handles and the decode frame present. -/
def sampleCodecSession : H264MpegtsStreamer :=
  { sampleSession with
    encode_ctx_ := some (), decode_ctx_ := some (), decode_frame_ := some { content := [] } }

/-! ## Properties -/

/-- An `int` inside the 32-bit range is left alone by the wrap-around. -/
theorem wrapInt32_of_range (x : Int) (h1 : -2147483648 ≤ x) (h2 : x < 2147483648) :
    wrapInt32 x = x := by
  unfold wrapInt32
  omega

/-- Masking a natural number with `2 ^ k - 1`, as integers. -/
theorem land_natCast (a m : Nat) : Int.land (a : Int) (m : Int) = ((a &&& m : Nat) : Int) := rfl

/-- Or of two natural numbers, as integers. -/
theorem lor_natCast (a m : Nat) : Int.lor (a : Int) (m : Int) = ((a ||| m : Nat) : Int) := rfl

/-- Right shift of a natural number, as integers. -/
theorem shiftRight_natCast (a k : Nat) : (a : Int) >>> k = ((a >>> k : Nat) : Int) := rfl

/-- Left shift by one of a natural number, as integers. -/
theorem shiftLeft_one_natCast (a : Nat) : (a : Int) <<< (1 : Int) = ((a <<< 1 : Nat) : Int) :=
  Int.shiftLeft_coe_nat a 1

/-- A byte store of a natural number keeps it modulo 256. -/
theorem toUInt8_natCast (a : Nat) : toUInt8 (a : Int) = a % 256 := by
  unfold toUInt8
  omega

/-- The first timestamp byte: marker `0x21` around a 3-bit field. -/
theorem ts_byte_top : ∀ x : Nat, x < 8 →
    (0x21 ||| (x <<< 1)) = 33 + 2 * x ∧ (33 + 2 * x) &&& 0xF1 = 0x21 ∧
      ((33 + 2 * x) >>> 1) &&& 7 = x := by
  decide

/-- A timestamp byte holding a 7-bit field above a marker bit. -/
theorem ts_byte_low : ∀ x : Nat, x < 128 →
    (1 ||| (x <<< 1)) = 1 + 2 * x ∧ (1 + 2 * x) &&& 1 = 1 ∧ (1 + 2 * x) >>> 1 = x := by
  decide

/-- The five timestamp bytes of `CreatePESHeader` for a non-negative `pts`. -/
theorem CreatePESHeader_ts_bytes (type : MediaType) (data_size : Int) (n : Nat) :
    (CreatePESHeader type data_size (n : Int)).1.drop 7 =
      [0x80, 5, 33 + 2 * (n / 1073741824 % 8), n / 4194304 % 256,
        1 + 2 * (n / 32768 % 128), n / 128 % 256, 1 + 2 * (n % 128)] := by
  have hne : ¬ ((n : Int) = -1) := by omega
  have m7 : ∀ a : Nat, Int.land (a : Int) 7 = ((a % 8 : Nat) : Int) := fun a => by
    rw [show (7 : Int) = ((7 : Nat) : Int) from rfl, land_natCast]
    exact congrArg _ (Nat.and_pow_two_sub_one_eq_mod a 3)
  have m7f : ∀ a : Nat, Int.land (a : Int) 0x7F = ((a % 128 : Nat) : Int) := fun a => by
    rw [show (0x7F : Int) = ((127 : Nat) : Int) from rfl, land_natCast]
    exact congrArg _ (Nat.and_pow_two_sub_one_eq_mod a 7)
  have mff : ∀ a : Nat, Int.land (a : Int) 0xFF = ((a % 256 : Nat) : Int) := fun a => by
    rw [show (0xFF : Int) = ((255 : Nat) : Int) from rfl, land_natCast]
    exact congrArg _ (Nat.and_pow_two_sub_one_eq_mod a 8)
  have o21 : ∀ a : Nat, Int.lor 0x21 (a : Int) = ((0x21 ||| a : Nat) : Int) := fun a => rfl
  have o1 : ∀ a : Nat, Int.lor 1 (a : Int) = ((1 ||| a : Nat) : Int) := fun a => rfl
  have t1 := ts_byte_top (n / 1073741824 % 8) (Nat.mod_lt _ (by decide))
  have t2 := ts_byte_low (n / 32768 % 128) (Nat.mod_lt _ (by decide))
  have t3 := ts_byte_low (n % 128) (Nat.mod_lt _ (by decide))
  simp only [CreatePESHeader, hne, if_false, List.drop, shiftRight_natCast, m7, m7f, mff,
    shiftLeft_one_natCast, o21, o1, toUInt8_natCast, Nat.shiftRight_eq_div_pow]
  simp only [Nat.reducePow, Nat.div_one, t1.1, t2.1, t3.1, List.cons.injEq, and_true, true_and]
  refine ⟨?_, ?_, ?_, ?_, ?_⟩ <;> omega

/-- Reading a list at `k + i` is reading its tail from `k` at `i`. -/
theorem getD_add_eq_drop (l : List Nat) (k i : Nat) : l.getD (k + i) 0 = (l.drop k).getD i 0 := by
  simp [List.getD_eq_getElem?_getD, List.getElem?_drop]

/-- The decoded timestamp only depends on the bytes from index 9 on. -/
theorem PESTimestamp_of_drop (h h' : List Nat) (e : h.drop 9 = h'.drop 9) :
    PESTimestamp h = PESTimestamp h' := by
  have g : ∀ i, h.getD (9 + i) 0 = h'.getD (9 + i) 0 := fun i => by
    rw [getD_add_eq_drop, getD_add_eq_drop, e]
  unfold PESTimestamp
  rw [g 0, g 1, g 2, g 3, g 4]

/-- Decoding the header built for a non-negative `pts` below `2^33`. -/
theorem PESTimestamp_CreatePESHeader (type : MediaType) (data_size : Int) (n : Nat)
    (hn : n < 8589934592) :
    PESTimestamp (CreatePESHeader type data_size (n : Int)).1 = n := by
  have hb := CreatePESHeader_ts_bytes type data_size n
  have g : ∀ i, (CreatePESHeader type data_size (n : Int)).1.getD (7 + i) 0 =
      [0x80, 5, 33 + 2 * (n / 1073741824 % 8), n / 4194304 % 256,
        1 + 2 * (n / 32768 % 128), n / 128 % 256, 1 + 2 * (n % 128)].getD i 0 := fun i => by
    rw [getD_add_eq_drop, hb]
  have t1 := ts_byte_top (n / 1073741824 % 8) (Nat.mod_lt _ (by decide))
  have t2 := ts_byte_low (n / 32768 % 128) (Nat.mod_lt _ (by decide))
  have t3 := ts_byte_low (n % 128) (Nat.mod_lt _ (by decide))
  unfold PESTimestamp
  rw [g 2, g 3, g 4, g 5, g 6]
  simp only [List.getD_cons_succ, List.getD_cons_zero, t1.2.2, t2.2.2, t3.2.2, Nat.reducePow]
  omega

/-- The high byte stored for a 16-bit size. -/
theorem toUInt8_shiftRight_8 (d : Int) (h0 : 0 ≤ d) (h : d ≤ 65535) :
    (toUInt8 (d >>> (8 : Nat)) : Int) = d / 256 := by
  obtain ⟨k, rfl⟩ := Int.eq_ofNat_of_zero_le h0
  rw [shiftRight_natCast, toUInt8_natCast, Nat.shiftRight_eq_div_pow]
  simp only [Nat.reducePow]
  omega

/-- The low byte stored for a non-negative size. -/
theorem toUInt8_land_255 (d : Int) (h0 : 0 ≤ d) :
    (toUInt8 (Int.land d 0xFF) : Int) = d % 256 := by
  obtain ⟨k, rfl⟩ := Int.eq_ofNat_of_zero_le h0
  rw [show (0xFF : Int) = ((255 : Nat) : Int) from rfl, land_natCast, toUInt8_natCast,
    show (255 : Nat) = 2 ^ 8 - 1 from rfl, Nat.and_pow_two_sub_one_eq_mod]
  simp only [Nat.reducePow]
  omega

/-- On a byte, `(x & 0xc0) >> 6 == 0` says that the top 2 bits are 0. -/
theorem top_two_bits (x : Nat) (hx : x < 256) :
    ((x &&& 0xc0) >>> 6 == 0) = decide (x < 64) := by
  revert x
  set_option maxRecDepth 8000 in decide

/-- C2. Keyframe detection on sufficient data: on a non-null buffer `b` of
bytes whose length `len` is above 6, `IsKeyFrame` is the classifier of the
specification; so `00 00 01 65 ..` is a keyframe, `00 00 01 41 ..` is not,
`00 00 01 B6 00 ..` is, and `00 00 01 B6 C0 ..` is not. -/
theorem IsKeyFrame_sufficient_data (b : List Nat) (len : Int)
    (hbytes : ∀ x ∈ b, x < 256) (hlen : len = b.length) (h6 : 6 < len) :
    IsKeyFrame (some b) len = IsKeyFrameRef b ∧
    (b.take 4 = [0x00, 0x00, 0x01, 0x65] → IsKeyFrame (some b) len = true) ∧
    (b.take 4 = [0x00, 0x00, 0x01, 0x41] → IsKeyFrame (some b) len = false) ∧
    (b.take 5 = [0x00, 0x00, 0x01, 0xB6, 0x00] → IsKeyFrame (some b) len = true) ∧
    (b.take 5 = [0x00, 0x00, 0x01, 0xB6, 0xC0] → IsKeyFrame (some b) len = false) := by
  subst hlen
  match b, hbytes, h6 with
  | b0 :: b1 :: b2 :: b3 :: b4 :: b5 :: b6 :: rest, hbytes, _ =>
    have h4 : b4 < 256 := hbytes b4 (by simp)
    have h5 : b5 < 256 := hbytes b5 (by simp)
    have t4 := top_two_bits b4 h4
    have t5 := top_two_bits b5 h5
    have hgt : ¬ ((rest.length : Int) + 1 + 1 + 1 + 1 + 1 + 1 + 1 ≤ 6) := by omega
    refine ⟨?_, ?_, ?_, ?_, ?_⟩
    · simp only [IsKeyFrame, IsKeyFrameRef, List.length_cons, Nat.cast_add, Nat.cast_one,
        ge_iff_le, hgt, if_false, List.getD_cons_zero, List.getD_cons_succ]
      rw [t4, t5]
      have e1 : ∀ x : Nat, (182 == x) = decide (x = 182) := fun x => by
        rw [Bool.eq_iff_iff]; simp only [beq_iff_eq, decide_eq_true_eq]; exact eq_comm
      have e2 : ∀ x : Nat, (1 != x) = !decide (x = 1) := fun x => by
        by_cases hx : x = 1
        · subst hx; rfl
        · have hx1 : ¬ (1 = x) := fun h => hx h.symm
          simp [bne, hx, hx1]
      simp only [e1, e2, Nat.zero_add, List.getD_cons_zero]
      by_cases h0 : b0 = 0 <;> by_cases h1 : b1 = 0 <;> by_cases h2 : b2 = 1 <;>
        by_cases h3 : b3 = 182 <;> by_cases h3k : b3 = 101 <;>
        by_cases h4 : b4 = 182 <;> by_cases h4k : b4 = 101 <;>
        simp [h0, h1, h2, h3, h3k, h4, h4k]
    all_goals
      intro hpre
      simp only [List.take, List.cons.injEq] at hpre
      simp [IsKeyFrame, hgt, hpre]
  | [], _, h6 => simp at h6
  | [_], _, h6 => simp at h6
  | [_, _], _, h6 => simp at h6
  | [_, _, _], _, h6 => simp at h6
  | [_, _, _, _], _, h6 => simp at h6
  | [_, _, _, _, _], _, h6 => simp at h6
  | [_, _, _, _, _, _], _, h6 => simp at h6

/-- Witness of C2: the 7-byte IDR slice `00 00 01 65 88 84 00`. -/
theorem IsKeyFrame_sufficient_data_witness :
    (6 : Int) < 7 ∧ IsKeyFrame (some [0x00, 0x00, 0x01, 0x65, 0x88, 0x84, 0x00]) 7 = true :=
  ⟨by decide,
    (IsKeyFrame_sufficient_data [0x00, 0x00, 0x01, 0x65, 0x88, 0x84, 0x00] 7
      (by decide) (by rfl) (by decide)).2.1 (by rfl)⟩

/-- C3. On insufficient data `IsKeyFrame` answers `true`, not `false`: the
6-byte non-IDR slice `00 00 01 41 9a 00`, the empty buffer and the null
pointer are all classified as keyframes, because `return -1` converts to
`true`. -/
theorem IsKeyFrame_insufficient_data_is_true :
    IsKeyFrame (some [0x00, 0x00, 0x01, 0x41, 0x9a, 0x00]) 6 = true ∧
    IsKeyFrame (some []) 0 = true ∧
    IsKeyFrame none 0 = true := by
  decide

/-- C5. PES timestamp round trip: for `0 ≤ pts < 2^33` the header has
`bytes[7] = 0x80`, `bytes[8] = 5`, the marker bits set
(`bytes[9] & 0xF1 = 0x21`, `bytes[11] & 1 = 1`, `bytes[13] & 1 = 1`), the
three-field decoding gives back `pts`, and two such timestamps with the same
timestamp bytes are equal. -/
theorem CreatePESHeader_pts_roundtrip (type : MediaType) (data_size pts : Int)
    (h0 : 0 ≤ pts) (h33 : pts < 8589934592) :
    (CreatePESHeader type data_size pts).1.getD 7 0 = 0x80 ∧
    (CreatePESHeader type data_size pts).1.getD 8 0 = 5 ∧
    (CreatePESHeader type data_size pts).1.getD 9 0 &&& 0xF1 = 0x21 ∧
    (CreatePESHeader type data_size pts).1.getD 11 0 &&& 1 = 1 ∧
    (CreatePESHeader type data_size pts).1.getD 13 0 &&& 1 = 1 ∧
    (PESTimestamp (CreatePESHeader type data_size pts).1 : Int) = pts ∧
    (∀ (type' : MediaType) (data_size' pts' : Int), 0 ≤ pts' → pts' < 8589934592 →
      (CreatePESHeader type' data_size' pts').1.drop 9 =
        (CreatePESHeader type data_size pts).1.drop 9 → pts' = pts) := by
  obtain ⟨n, rfl⟩ := Int.eq_ofNat_of_zero_le h0
  have hn : n < 8589934592 := by omega
  have hb := CreatePESHeader_ts_bytes type data_size n
  have g : ∀ i, (CreatePESHeader type data_size (n : Int)).1.getD (7 + i) 0 =
      [0x80, 5, 33 + 2 * (n / 1073741824 % 8), n / 4194304 % 256,
        1 + 2 * (n / 32768 % 128), n / 128 % 256, 1 + 2 * (n % 128)].getD i 0 := fun i => by
    rw [getD_add_eq_drop, hb]
  have t1 := ts_byte_top (n / 1073741824 % 8) (Nat.mod_lt _ (by decide))
  have t2 := ts_byte_low (n / 32768 % 128) (Nat.mod_lt _ (by decide))
  have t3 := ts_byte_low (n % 128) (Nat.mod_lt _ (by decide))
  refine ⟨g 0, g 1, ?_, ?_, ?_, ?_, ?_⟩
  · rw [g 2]; exact t1.2.1
  · rw [g 4]; exact t2.2.1
  · rw [g 6]; exact t3.2.1
  · rw [PESTimestamp_CreatePESHeader type data_size n hn]
  · intro type' data_size' pts' h0' h33' e
    obtain ⟨m, rfl⟩ := Int.eq_ofNat_of_zero_le h0'
    have hm : m < 8589934592 := by omega
    have e1 := PESTimestamp_of_drop _ _ e
    rw [PESTimestamp_CreatePESHeader type' data_size' m hm,
      PESTimestamp_CreatePESHeader type data_size n hn] at e1
    rw [e1]

/-- Witness of C5: the timestamp `0x123456789` (33 bits) on a video header. -/
theorem CreatePESHeader_pts_roundtrip_witness :
    (0 : Int) ≤ 4886718345 ∧ (4886718345 : Int) < 8589934592 ∧
    (CreatePESHeader .VIDEO 100 4886718345).1.drop 7 = [0x80, 5, 0x29, 0x8D, 0x15, 0xCF, 0x13] ∧
    (PESTimestamp (CreatePESHeader .VIDEO 100 4886718345).1 : Int) = 4886718345 :=
  ⟨by decide, by decide, by decide,
    (CreatePESHeader_pts_roundtrip .VIDEO 100 4886718345 (by decide) (by decide)).2.2.2.2.2.1⟩

/-- C4. PES header framing and length rule: for a payload size `n` with
`0 ≤ n ≤ 2^31 - 9` the header has length 9 when `pts = -1` and 14 otherwise,
starts with `00 00 01 tag`, has `bytes[6] = 0x84`, stores the declared size
`d = min (n + ext) 65535` big-endian in `bytes[4..5]`, so `d ≤ 65535`, and
gives `size_included = d - ext`. -/
theorem CreatePESHeader_framing (type : MediaType) (n pts : Int)
    (hn0 : 0 ≤ n) (hn : n ≤ 2147483639) :
    (CreatePESHeader type n pts).1.length = PESHeaderLength pts ∧
    (CreatePESHeader type n pts).1.take 4 =
      [0x00, 0x00, 0x01, match type with | MediaType.AUDIO => 0xC0 | MediaType.VIDEO => 0xE0] ∧
    (CreatePESHeader type n pts).1.getD 6 0 = 0x84 ∧
    ((CreatePESHeader type n pts).1.getD 4 0 : Int) = PESDeclaredSize n pts / 256 ∧
    ((CreatePESHeader type n pts).1.getD 5 0 : Int) = PESDeclaredSize n pts % 256 ∧
    PESDeclaredSize n pts ≤ 65535 ∧
    (CreatePESHeader type n pts).2 = PESDeclaredSize n pts - ((PESHeaderLength pts : Int) - 6) := by
  have htag : toUInt8 (Int.land type.toInt 0xFF) =
      (match type with | MediaType.AUDIO => 0xC0 | MediaType.VIDEO => 0xE0) := by
    cases type <;> decide
  by_cases hp : pts = -1
  · subst hp
    have hw : wrapInt32 (n + (9 - 6)) = n + 3 := by
      rw [wrapInt32_of_range] <;> omega
    have hd : PESDeclaredSize n (-1) = if n + 3 > 65535 then 65535 else n + 3 := by
      simp only [PESDeclaredSize, PESHeaderLength, if_true]
      split_ifs <;> omega
    have hd0 : 0 ≤ PESDeclaredSize n (-1) := by rw [hd]; split_ifs <;> omega
    have hd1 : PESDeclaredSize n (-1) ≤ 65535 := by rw [hd]; split_ifs <;> omega
    have hs : wrapInt32 (PESDeclaredSize n (-1) - (9 - 6)) =
        PESDeclaredSize n (-1) - 3 := by
      rw [wrapInt32_of_range] <;> omega
    simp only [CreatePESHeader, if_true, hw, kMaxPESPacketLen, htag, ← hd,
      List.length_cons, List.length_nil, PESHeaderLength, List.take, List.getD_cons_succ,
      List.getD_cons_zero, hs]
    refine ⟨trivial, trivial, trivial, toUInt8_shiftRight_8 _ hd0 hd1, toUInt8_land_255 _ hd0,
      hd1, ?_⟩
    norm_num
  ·
    have hw : wrapInt32 (n + (14 - 6)) = n + 8 := by
      rw [wrapInt32_of_range] <;> omega
    have hd : PESDeclaredSize n pts = if n + 8 > 65535 then 65535 else n + 8 := by
      simp only [PESDeclaredSize, PESHeaderLength, hp, if_false]
      split_ifs <;> omega
    have hd0 : 0 ≤ PESDeclaredSize n pts := by rw [hd]; split_ifs <;> omega
    have hd1 : PESDeclaredSize n pts ≤ 65535 := by rw [hd]; split_ifs <;> omega
    have hs : wrapInt32 (PESDeclaredSize n pts - (14 - 6)) =
        PESDeclaredSize n pts - 8 := by
      rw [wrapInt32_of_range] <;> omega
    simp only [CreatePESHeader, hp, if_false, hw, kMaxPESPacketLen, htag, ← hd,
      List.length_cons, List.length_nil, PESHeaderLength, List.take, List.getD_cons_succ,
      List.getD_cons_zero, hs]
    refine ⟨trivial, trivial, trivial, toUInt8_shiftRight_8 _ hd0 hd1, toUInt8_land_255 _ hd0,
      hd1, ?_⟩
    norm_num

/-! ### The session -/

/-- Reflexivity of `SameLatch`. -/
theorem SameLatch.rfl (s : H264MpegtsStreamer) : SameLatch s s := ⟨Eq.refl _, Eq.refl _, Eq.refl _⟩

/-- Witness of C4: payload size 100 on a video header without timestamp
gives the 9-byte header with declared size 103 and `size_included = 100`; a
payload of 70000 bytes with a timestamp gives the declared size 65535 and
`size_included = 65535 - 8`. -/
theorem CreatePESHeader_framing_witness :
    (0 : Int) ≤ 100 ∧ (100 : Int) ≤ 2147483639 ∧
    CreatePESHeader .VIDEO 100 (-1) =
      ([0x00, 0x00, 0x01, 0xE0, 0x00, 103, 0x84, 0x00, 0x00], 100) ∧
    PESDeclaredSize 100 (-1) = 103 ∧
    PESDeclaredSize 70000 0 = 65535 ∧
    (CreatePESHeader .VIDEO 70000 0).2 = 65527 ∧
    (CreatePESHeader .VIDEO 100 (-1)).1.length = PESHeaderLength (-1) :=
  ⟨by decide, by decide, by decide, by decide, by decide, by decide,
    (CreatePESHeader_framing .VIDEO 100 (-1) (by decide) (by decide)).1⟩

/-- C7. `StreamReencodeData` does not fail on a decoder error. When the
decoder rejects the packet with `AVERROR_INVALIDDATA`, the call returns
success after that single library call. When the frame retrieval fails with
`AVERROR_INVALIDDATA`, the call still submits the frame buffer to
`StreamFrame` (the `avcodec_send_frame` event) and returns success. -/
theorem StreamReencodeData_decoder_error_returns_true :
    sampleCodecSession.decode_ctx_ = some () ∧
    (StreamReencodeData (sampleLib retSendPacketFails) 4 4 sampleCodecSession []
      [0x00, 0x00, 0x01, 0x65, 0x88, 0x84, 0x00] 0).1 = .ret true ∧
    (StreamReencodeData (sampleLib retSendPacketFails) 4 4 sampleCodecSession []
      [0x00, 0x00, 0x01, 0x65, 0x88, 0x84, 0x00] 0).2.2.length = 1 ∧
    (sampleLib retSendPacketFails).ret
      (StreamReencodeData (sampleLib retSendPacketFails) 4 4 sampleCodecSession []
        [0x00, 0x00, 0x01, 0x65, 0x88, 0x84, 0x00] 0).2.2 = -1094995529 ∧
    (StreamReencodeData (sampleLib retReceiveFrameFails) 4 4 sampleCodecSession []
      [0x00, 0x00, 0x01, 0x65, 0x88, 0x84, 0x00] 0).1 = .ret true ∧
    (StreamReencodeData (sampleLib retReceiveFrameFails) 4 4 sampleCodecSession []
      [0x00, 0x00, 0x01, 0x65, 0x88, 0x84, 0x00] 0).2.2.drop 1 =
      [Event.avcodec_receive_frame, Event.avcodec_send_frame (some { content := [] }),
        Event.avcodec_receive_packet] ∧
    (sampleLib retReceiveFrameFails).ret
      ((StreamReencodeData (sampleLib retReceiveFrameFails) 4 4 sampleCodecSession []
        [0x00, 0x00, 0x01, 0x65, 0x88, 0x84, 0x00] 0).2.2.take 2) = -1094995529 := by
  decide

/-- The stream `AddVideoStream` returns has the time base `1 / fps_`. -/
theorem AddVideoStream_time_base (lib : AvLib) (s : H264MpegtsStreamer) (tr tr1 : List Event)
    (st : AVStream) (hadd : AddVideoStream lib s tr = (.ret st, tr1)) :
    st.time_base = { num := 1, den := s.fps_ } := by
  unfold AddVideoStream at hadd
  dsimp only at hadd
  split at hadd
  · simp at hadd
  · simp only [Prod.mk.injEq, Outcome.ret.injEq] at hadd
    rw [← hadd.1]

/-- C9. Timestamp rescale: on the stream made by `AddVideoStream` for a frame
rate `fps_ > 0`, the packet `WrapEncodedBuffer` fills for a timestamp
`t ≥ 0` in microseconds has the presentation timestamp
`(t * fps_ + 500000) / 1000000`, which is `t * fps_ / 1000000` rounded to the
nearest integer, and the decoding timestamp `AV_NOPTS_VALUE`. -/
theorem WrapEncodedBuffer_pts (lib : AvLib) (s : H264MpegtsStreamer) (tr tr1 : List Event)
    (st : AVStream) (data : Option (List Nat)) (size t : Int)
    (hadd : AddVideoStream lib s tr = (.ret st, tr1)) (hfps : 0 < s.fps_) (ht : 0 ≤ t) :
    ∃ pkt, WrapEncodedBuffer lib { s with ostream_ := some st } data size t = some pkt ∧
      pkt.pts = av_rescale_q t { num := 1, den := 1000000 } { num := 1, den := s.fps_ } ∧
      pkt.pts = (t * s.fps_ + 500000) / 1000000 ∧
      2 * (pkt.pts * 1000000 - t * s.fps_) ≤ 1000000 ∧
      2 * (t * s.fps_ - pkt.pts * 1000000) ≤ 1000000 ∧
      pkt.dts = lib.AV_NOPTS_VALUE := by
  have htb := AddVideoStream_time_base lib s tr tr1 st hadd
  have hx : 0 ≤ t * s.fps_ := Int.mul_nonneg ht (Int.le_of_lt hfps)
  have hr : av_rescale_q t { num := 1, den := 1000000 } { num := 1, den := s.fps_ } =
      (t * s.fps_ + 500000) / 1000000 := by
    simp only [av_rescale_q, Int.one_mul, Int.mul_one, hx, if_true]
    norm_num
  refine ⟨_, rfl, ?_, ?_, ?_, ?_, rfl⟩
  · simp only [htb]
  · simp only [htb, hr]
  · simp only [htb, hr]
    generalize t * s.fps_ = x at hx
    omega
  · simp only [htb, hr]
    generalize t * s.fps_ = x at hx
    omega

/-- Witness of C9: at 30 frames per second, one second (1,000,000
microseconds) is 30 ticks, and the timestamp 0 is 0. -/
theorem WrapEncodedBuffer_pts_witness :
    sampleSession.fps_ = 30 ∧
    (WrapEncodedBuffer (sampleLib retOk) sampleSession (some [0x00, 0x00, 0x01, 0x65]) 4
      1000000).map (fun pkt => (pkt.pts, pkt.dts)) = some (30, -9223372036854775808) ∧
    (WrapEncodedBuffer (sampleLib retOk) sampleSession (some [0x00, 0x00, 0x01, 0x65]) 4
      0).map (fun pkt => pkt.pts) = some 0 ∧
    (∃ pkt, WrapEncodedBuffer (sampleLib retOk)
        { sampleSession with ostream_ := some sampleStream }
        (some [0x00, 0x00, 0x01, 0x65]) 4 1000000 = some pkt ∧
      pkt.pts = (1000000 * sampleSession.fps_ + 500000) / 1000000) :=
  ⟨rfl, by decide, by decide,
    (WrapEncodedBuffer_pts (sampleLib retOk) sampleSession
      [Event.avformat_alloc_output_context2 "out.ts"]
      [Event.avformat_alloc_output_context2 "out.ts", Event.avformat_new_stream]
      sampleStream (some [0x00, 0x00, 0x01, 0x65]) 4 1000000 (by rfl) (by decide)
      (by decide)).imp (fun _ h => ⟨h.1, h.2.2.1⟩)⟩

end MultimediaTools
